import Mathlib

/-!
Shallow embedding of `src/tools/apk_utils.py` from the R8 repository.

The whole program is one function `sign(unsigned_apk, signed_apk, keystore)`
that

1. prints a banner,
2. builds the command `['zip', '-d', unsigned_apk, 'META-INF/*']`, prints it
   via `utils.PrintCmd`, and runs it with `subprocess.call` (exit status
   discarded),
3. builds the `jarsigner` command, prints it via `utils.PrintCmd`, and runs
   it with `subprocess.check_call` (which raises `CalledProcessError` on a
   non-zero exit status).

We model a run of `sign` as a pure function from its three string arguments
and an environment oracle `exitOf : List String → Int` (the exit status that
the operating system would report for each spawned command line) to a pair of
an observable event trace and a result `Except CalledProcessError Unit`.
-/

namespace ApkUtils

/-- Observable events of a run: the banner print, the diagnostic print of a
command line, and the spawning of an external process together with the exit
status it finished with. -/
inductive Event where
  | printMsg (msg : String)
  | printCmd (cmd : List String)
  | spawn (cmd : List String) (returncode : Int)
  deriving DecidableEq, Repr

/-- Python's `subprocess.CalledProcessError`: it carries the exit status and
the command of the failing invocation. -/
structure CalledProcessError where
  returncode : Int
  cmd : List String
  deriving DecidableEq, Repr

/-- `subprocess.call(cmd)`: spawn the command, wait, and return its exit
status to the caller. -/
def subprocess.call (exitOf : List String → Int) (cmd : List String) :
    Event × Int :=
  (Event.spawn cmd (exitOf cmd), exitOf cmd)

/-- `subprocess.check_call(cmd)`: spawn the command, wait, and raise
`CalledProcessError(retcode, cmd)` when the exit status is non-zero. -/
def subprocess.check_call (exitOf : List String → Int) (cmd : List String) :
    Event × Except CalledProcessError Unit :=
  let retcode := exitOf cmd
  (Event.spawn cmd retcode,
    if retcode = 0 then Except.ok () else Except.error ⟨retcode, cmd⟩)

/-- Modelled from the spec: `utils.PrintCmd` lives in the repository's
`utils` module, which is not among the provided source files. Per the spec,
it emits diagnostic text describing the invocation, i.e. its command line. -/
def PrintCmd (cmd : List String) : Event :=
  Event.printCmd cmd

/-- The `sign` function of `src/tools/apk_utils.py`, line by line. The exit
status returned by `subprocess.call` for the `zip` step is discarded, exactly
as in the source; the result of the run is the result of
`subprocess.check_call` on the `jarsigner` step. -/
def sign (unsigned_apk signed_apk keystore : String)
    (exitOf : List String → Int) :
    List Event × Except CalledProcessError Unit :=
  let banner := Event.printMsg "Signing (ignore the warnings)"
  let cmd1 := ["zip", "-d", unsigned_apk, "META-INF/*"]
  let diag1 := PrintCmd cmd1
  let call1 := subprocess.call exitOf cmd1
  let cmd2 : List String :=
    ["jarsigner",
     "-sigalg", "SHA1withRSA",
     "-digestalg", "SHA1",
     "-keystore", keystore,
     "-storepass", "android",
     "-signedjar", signed_apk,
     unsigned_apk,
     "androiddebugkey"]
  let diag2 := PrintCmd cmd2
  let call2 := subprocess.check_call exitOf cmd2
  ([banner, diag1, call1.1, diag2, call2.1], call2.2)

/-- The command lines of the spawn events of a trace, in order. -/
def spawnedCmds : List Event → List (List String)
  | [] => []
  | Event.spawn cmd _ :: es => cmd :: spawnedCmds es
  | _ :: es => spawnedCmds es

/-- The `zip` command line `sign` builds for a given input path. Used only to
state theorems; `sign` itself builds the list inline, as the source does. -/
def zipCmd (unsigned_apk : String) : List String :=
  ["zip", "-d", unsigned_apk, "META-INF/*"]

/-- The `jarsigner` command line `sign` builds. Used only to state theorems;
`sign` itself builds the list inline, as the source does. -/
def jarsignerCmd (unsigned_apk signed_apk keystore : String) : List String :=
  ["jarsigner",
   "-sigalg", "SHA1withRSA",
   "-digestalg", "SHA1",
   "-keystore", keystore,
   "-storepass", "android",
   "-signedjar", signed_apk,
   unsigned_apk,
   "androiddebugkey"]

/-- Modelled from the spec: the effect of one run-time event on the entry
list of the unsigned input archive. Per the spec, the archive tool invocation
deletes the entries under the `META-INF/` prefix from that archive in place
when it succeeds, and the signing tool writes only the separate signed output
path; print events touch no file. -/
def archiveStep (unsigned_apk : String) (entries : List String) :
    Event → List String
  | Event.spawn cmd r =>
      if cmd = zipCmd unsigned_apk ∧ r = 0 then
        entries.filter (fun entry => ! entry.startsWith "META-INF/")
      else entries
  | _ => entries

/-- The entry list of the unsigned archive after a trace of events. -/
def archiveAfter (unsigned_apk : String) (entries : List String)
    (trace : List Event) : List String :=
  trace.foldl (archiveStep unsigned_apk) entries

/-- Helper: the result of a run of `sign` is decided solely by the exit
status of the `jarsigner` invocation. Holds by unfolding the definitions. -/
theorem sign_result_eq (u s k : String) (exitOf : List String → Int) :
    (sign u s k exitOf).2 =
      if exitOf (jarsignerCmd u s k) = 0 then Except.ok ()
      else Except.error ⟨exitOf (jarsignerCmd u s k), jarsignerCmd u s k⟩ :=
  rfl

/-- Helper: the trace of a run of `sign`, in closed form. -/
theorem sign_trace_eq (u s k : String) (exitOf : List String → Int) :
    (sign u s k exitOf).1 =
      [Event.printMsg "Signing (ignore the warnings)",
       Event.printCmd (zipCmd u),
       Event.spawn (zipCmd u) (exitOf (zipCmd u)),
       Event.printCmd (jarsignerCmd u s k),
       Event.spawn (jarsignerCmd u s k) (exitOf (jarsignerCmd u s k))] :=
  rfl

/-- C1: whenever the signing invocation (`jarsigner`) exits with a non-zero
status, `sign` surfaces an error to its caller and never reports success,
regardless of any other state. -/
theorem sign_errors_on_signing_failure (u s k : String)
    (exitOf : List String → Int)
    (h : exitOf (jarsignerCmd u s k) ≠ 0) :
    (sign u s k exitOf).2 =
      Except.error ⟨exitOf (jarsignerCmd u s k), jarsignerCmd u s k⟩ ∧
    ∀ r, (sign u s k exitOf).2 ≠ Except.ok r := by
  rw [sign_result_eq, if_neg h]
  exact ⟨rfl, fun r hr => Except.noConfusion hr⟩

/-- C1 witness: with every spawned process exiting 1, `sign` on concrete
paths returns the `CalledProcessError` and is not a success. -/
theorem sign_errors_on_signing_failure_witness :
    (sign "a.apk" "b.apk" "ks" (fun _ => 1)).2 =
      Except.error ⟨1, jarsignerCmd "a.apk" "b.apk" "ks"⟩ ∧
    ∀ r, (sign "a.apk" "b.apk" "ks" (fun _ => 1)).2 ≠ Except.ok r :=
  sign_errors_on_signing_failure "a.apk" "b.apk" "ks" (fun _ => 1) (by decide)

/-- C2: when the archive invocation (`zip -d`) exits non-zero, `sign` still
spawns the signing invocation, and the run succeeds exactly when the signing
invocation exits zero: the archive status is ignored. -/
theorem sign_proceeds_after_zip_failure (u s k : String)
    (exitOf : List String → Int)
    (h : exitOf (zipCmd u) ≠ 0) :
    Event.spawn (jarsignerCmd u s k) (exitOf (jarsignerCmd u s k))
        ∈ (sign u s k exitOf).1 ∧
    ((sign u s k exitOf).2 = Except.ok () ↔
      exitOf (jarsignerCmd u s k) = 0) := by
  refine ⟨by rw [sign_trace_eq]; simp, ?_⟩
  rw [sign_result_eq]
  by_cases h2 : exitOf (jarsignerCmd u s k) = 0 <;> simp [h2]

/-- C2 witness: with the `zip` step exiting 12 (no matching entries) and the
`jarsigner` step exiting 0, `sign` spawns `jarsigner` and succeeds. -/
theorem sign_proceeds_after_zip_failure_witness :
    Event.spawn (jarsignerCmd "a.apk" "b.apk" "ks")
        ((fun c => if c.length = 4 then (12 : Int) else 0)
          (jarsignerCmd "a.apk" "b.apk" "ks"))
      ∈ (sign "a.apk" "b.apk" "ks"
          (fun c => if c.length = 4 then (12 : Int) else 0)).1 ∧
    ((sign "a.apk" "b.apk" "ks"
        (fun c => if c.length = 4 then (12 : Int) else 0)).2 = Except.ok () ↔
      (fun c => if c.length = 4 then (12 : Int) else 0)
        (jarsignerCmd "a.apk" "b.apk" "ks") = 0) :=
  sign_proceeds_after_zip_failure "a.apk" "b.apk" "ks"
    (fun c => if c.length = 4 then (12 : Int) else 0) (by decide)

/-- C3: for every argument triple, the second spawned command line is exactly
`jarsigner -sigalg SHA1withRSA -digestalg SHA1 -keystore <keystore>
-storepass android -signedjar <signed_apk> <unsigned_apk> androiddebugkey`;
the algorithm, digest, password and alias are fixed constants. -/
theorem sign_jarsigner_invocation_exact (u s k : String)
    (exitOf : List String → Int) :
    (spawnedCmds (sign u s k exitOf).1).get? 1 =
      some ["jarsigner", "-sigalg", "SHA1withRSA", "-digestalg", "SHA1",
            "-keystore", k, "-storepass", "android",
            "-signedjar", s, u, "androiddebugkey"] :=
  rfl

/-- C4: for every argument triple, the first spawned command line is exactly
`zip -d <unsigned_apk> META-INF/*`: in-place deletion restricted to the fixed
`META-INF/` prefix. -/
theorem sign_zip_invocation_exact (u s k : String)
    (exitOf : List String → Int) :
    (spawnedCmds (sign u s k exitOf).1).get? 0 =
      some ["zip", "-d", u, "META-INF/*"] :=
  rfl

/-- C5: every run of `sign` spawns exactly two external processes, the
archive tool strictly before the signing tool. -/
theorem sign_spawns_exactly_two_in_order (u s k : String)
    (exitOf : List String → Int) :
    spawnedCmds (sign u s k exitOf).1 = [zipCmd u, jarsignerCmd u s k] :=
  rfl

/-- C6: every spawn event in the trace of `sign` is preceded by a diagnostic
print of the very command line being spawned. -/
theorem sign_diag_precedes_spawn (u s k : String)
    (exitOf : List String → Int) (j : Nat) (c : List String) (r : Int)
    (hj : ((sign u s k exitOf).1).get? j = some (Event.spawn c r)) :
    ∃ i, i < j ∧
      ((sign u s k exitOf).1).get? i = some (Event.printCmd c) := by
  match j, hj with
  | 0, hj => exact Event.noConfusion (Option.some.inj hj)
  | 1, hj => exact Event.noConfusion (Option.some.inj hj)
  | 2, hj =>
    injection Option.some.inj hj with hc hr
    exact ⟨1, Nat.one_lt_two, by rw [← hc]; rfl⟩
  | 3, hj => exact Event.noConfusion (Option.some.inj hj)
  | 4, hj =>
    injection Option.some.inj hj with hc hr
    exact ⟨3, by omega, by rw [← hc]; rfl⟩
  | n + 5, hj => exact Option.noConfusion hj

/-- C6 witness: at index 2 of a concrete run the `zip` command is spawned,
and a diagnostic print of it occurs at an earlier index. -/
theorem sign_diag_precedes_spawn_witness :
    ∃ i, i < 2 ∧
      ((sign "a.apk" "b.apk" "ks" (fun _ => 0)).1).get? i =
        some (Event.printCmd ["zip", "-d", "a.apk", "META-INF/*"]) :=
  sign_diag_precedes_spawn "a.apk" "b.apk" "ks" (fun _ => 0) 2
    ["zip", "-d", "a.apk", "META-INF/*"] 0 rfl

/-- C7: whenever `sign` fails, the surfaced error carries the failing
command line and its non-zero exit status. -/
theorem sign_error_carries_cmd_and_status (u s k : String)
    (exitOf : List String → Int) (err : CalledProcessError)
    (h : (sign u s k exitOf).2 = Except.error err) :
    err.cmd = jarsignerCmd u s k ∧
    err.returncode = exitOf (jarsignerCmd u s k) ∧ err.returncode ≠ 0 := by
  rw [sign_result_eq] at h
  by_cases h0 : exitOf (jarsignerCmd u s k) = 0
  · rw [if_pos h0] at h
    exact Except.noConfusion h
  · rw [if_neg h0] at h
    injection h with h1
    subst h1
    exact ⟨rfl, rfl, h0⟩

/-- C7 witness: a concrete failing run produces an error whose fields are
the `jarsigner` command line and exit status 1. -/
theorem sign_error_carries_cmd_and_status_witness :
    (CalledProcessError.mk 1 (jarsignerCmd "a.apk" "b.apk" "ks")).cmd =
      jarsignerCmd "a.apk" "b.apk" "ks" ∧
    (CalledProcessError.mk 1 (jarsignerCmd "a.apk" "b.apk" "ks")).returncode =
      (fun _ => (1 : Int)) (jarsignerCmd "a.apk" "b.apk" "ks") ∧
    (CalledProcessError.mk 1
      (jarsignerCmd "a.apk" "b.apk" "ks")).returncode ≠ 0 :=
  sign_error_carries_cmd_and_status "a.apk" "b.apk" "ks" (fun _ => 1)
    ⟨1, jarsignerCmd "a.apk" "b.apk" "ks"⟩ rfl

/-- C8: when the `zip` step succeeded and the signing step fails, `sign`
reports an error, spawns no further process (exactly the two commands, so no
retry and no recovery command), and the unsigned archive stays stripped of
its `META-INF/` entries: the step-1 mutation is not rolled back. -/
theorem sign_no_retry_no_rollback (u s k : String)
    (exitOf : List String → Int) (entries : List String)
    (hz : exitOf (zipCmd u) = 0)
    (hj : exitOf (jarsignerCmd u s k) ≠ 0) :
    (∃ err, (sign u s k exitOf).2 = Except.error err) ∧
    spawnedCmds (sign u s k exitOf).1 = [zipCmd u, jarsignerCmd u s k] ∧
    archiveAfter u entries (sign u s k exitOf).1 =
      entries.filter (fun entry => ! entry.startsWith "META-INF/") := by
  refine ⟨⟨⟨exitOf (jarsignerCmd u s k), jarsignerCmd u s k⟩, ?_⟩, rfl, ?_⟩
  · rw [sign_result_eq, if_neg hj]
  · rw [sign_trace_eq]
    have hne : jarsignerCmd u s k ≠ zipCmd u := by
      intro h1
      have hlen := congrArg List.length h1
      simp [zipCmd, jarsignerCmd] at hlen
    simp [archiveAfter, archiveStep, hz, hne]

/-- C8 witness: on a concrete archive containing a `META-INF/` entry, with
`zip` exiting 0 and `jarsigner` exiting 1, the run errors out and the archive
stays stripped. -/
theorem sign_no_retry_no_rollback_witness :
    (∃ err, (sign "a.apk" "b.apk" "ks"
        (fun c => if c.length = 4 then (0 : Int) else 1)).2 =
      Except.error err) ∧
    spawnedCmds (sign "a.apk" "b.apk" "ks"
        (fun c => if c.length = 4 then (0 : Int) else 1)).1 =
      [zipCmd "a.apk", jarsignerCmd "a.apk" "b.apk" "ks"] ∧
    archiveAfter "a.apk" ["META-INF/MANIFEST.MF", "classes.dex"]
        (sign "a.apk" "b.apk" "ks"
          (fun c => if c.length = 4 then (0 : Int) else 1)).1 =
      (["META-INF/MANIFEST.MF", "classes.dex"].filter
        (fun entry => ! entry.startsWith "META-INF/")) :=
  sign_no_retry_no_rollback "a.apk" "b.apk" "ks"
    (fun c => if c.length = 4 then (0 : Int) else 1)
    ["META-INF/MANIFEST.MF", "classes.dex"] (by decide) (by decide)

/-- C9: `sign` performs no validation of its path arguments: for every
triple of strings, including empty ones, both tools are spawned, and the run
fails only through the exit status of the checked external invocation. -/
theorem sign_no_path_validation (u s k : String)
    (exitOf : List String → Int) :
    spawnedCmds (sign u s k exitOf).1 = [zipCmd u, jarsignerCmd u s k] ∧
    ((sign u s k exitOf).2 = Except.ok () ↔
      exitOf (jarsignerCmd u s k) = 0) := by
  refine ⟨rfl, ?_⟩
  rw [sign_result_eq]
  by_cases h2 : exitOf (jarsignerCmd u s k) = 0 <;> simp [h2]

/-- C10: the command lines `sign` builds are deterministic pure functions of
its three arguments: two runs with equal arguments and arbitrary, possibly
different, ambient environments spawn character-for-character identical
command lines. -/
theorem sign_cmds_deterministic (u s k : String)
    (exitOf₁ exitOf₂ : List String → Int) :
    spawnedCmds (sign u s k exitOf₁).1 = [zipCmd u, jarsignerCmd u s k] ∧
    spawnedCmds (sign u s k exitOf₂).1 = [zipCmd u, jarsignerCmd u s k] ∧
    spawnedCmds (sign u s k exitOf₁).1 = spawnedCmds (sign u s k exitOf₂).1 :=
  ⟨rfl, rfl, rfl⟩

end ApkUtils
